import Mathlib

/-!
Verification of the appointment-calendar pipeline (`app.py`).

The module-level pipeline of `app.py` is embedded shallowly: a pandas
column becomes a Lean list, a pandas `Series` lookup becomes an
association-list lookup, and fallible steps return `Except`.  Each
definition below names the source fragment it embeds.
-/

/-! ### Schema check (app.py lines 179-183)

`required_cols = {"date", "start_time", "professional", "patient",
"tipo_falta", "setor"}`; `missing = required_cols - set(df.columns)`;
if `missing` is nonempty the app shows the missing names and stops. -/

def requiredCols : List String :=
  ["date", "start_time", "professional", "patient", "tipo_falta", "setor"]

/-- The set difference `required_cols - set(df.columns)` as a list. -/
def missingCols (cols : List String) : List String :=
  requiredCols.filter (fun c => decide (c ∉ cols))

/-- The guard at lines 181-183: `st.error(...); st.stop()` when any required
column is missing, modelled as `Except` carrying the missing names. -/
def checkRequired (cols : List String) : Except (List String) Unit :=
  if missingCols cols = [] then Except.ok () else Except.error (missingCols cols)

/-! ### Category classifier (app.py lines 206-210)

`df['color'] = df['tipo_falta']`, then three sequential
`Series.replace` calls mapping the recognized outcome texts to colors. -/

/-- One `Series.replace(frm, tgt)` step applied to a single cell. -/
def replaceVal (frm tgt v : String) : String :=
  if v = frm then tgt else v

/-- The composition of the three `replace` calls at lines 208-210,
applied to one `tipo_falta` cell. -/
def colorOf (v : String) : String :=
  replaceVal "Profissional" "#E70F0F"
    (replaceVal "Paciente" "#2A3B9E"
      (replaceVal "Atendido" "#0C7A0C" v))

/-- The outcome texts that the replace chain recognizes. -/
def colorKeys : List String := ["Atendido", "Paciente", "Profissional"]

/-! ### Metrics (app.py lines 308-318)

`len(filtered[filtered['tipo_falta']==cat])/len(filtered)*100` guarded by
`try/except` (a zero-row view raises `ZeroDivisionError`, caught and
replaced by 0), then displayed as `round(x, 2)`. -/

/-- The ratio with the `try/except` guard: on an empty view the division
raises and the handler substitutes 0.  A cell is a match when it equals
the category exactly (a null cell never matches). -/
def categoryPct (col : List (Option String)) (cat : String) : ℚ :=
  if col.length = 0 then 0
  else ((col.filter (fun c => decide (c = some cat))).length : ℚ) / (col.length : ℚ) * 100

/-- Python `round(x, 2)` modelled over ℚ: round to the nearest multiple of 1/100.
(Python rounds ties to even; no claim here exercises a tie.) -/
def round2 (q : ℚ) : ℚ := ((round (q * 100) : ℤ) : ℚ) / 100

/-- What line 317/318 renders: the guarded ratio rounded to two decimals. -/
def displayedPct (col : List (Option String)) (cat : String) : ℚ :=
  round2 (categoryPct col cat)

/-! ### Temporal reconstruction (app.py line 188)

`df["start"] = pd.to_datetime(df["date"].astype(str) + " " +
df["start_time"].astype(str)[:-2], errors="coerce")`.

`df["start_time"].astype(str)[:-2]` slices the SERIES, keeping only the
rows at positions 0 .. n-3.  Adding it to the full-length date series
aligns on the row index, so the combined text is missing (NaN) at the
last two positions, and `errors="coerce"` turns both missing inputs and
unparseable text into NaT.  The external parser `pd.to_datetime` is
abstracted as an argument `parse` that returns `none` on failure. -/

structure Timestamp where
  year : Nat
  month : Nat
  day : Nat
  hour : Nat
  minute : Nat
  deriving DecidableEq, Repr

/-- The combined text column: `date[i] ++ " " ++ time[i]` at the positions
where the sliced time series still has a value (`i + 2 < n`), missing
elsewhere. -/
def combineDateTime (dates times : List String) : List (Option String) :=
  (List.range dates.length).map (fun i =>
    if i + 2 < times.length then
      match dates[i]?, times[i]? with
      | some d, some t => some (d ++ " " ++ t)
      | _, _ => none
    else none)

/-- Line 188 as a whole: combine, then parse with `errors="coerce"`
(missing or unparseable text becomes `none`, pandas NaT). -/
def reconstructStart (parse : String → Option Timestamp)
    (dates times : List String) : List (Option Timestamp) :=
  (combineDateTime dates times).map (fun o => o.bind parse)

/-- A concrete stand-in for the external `pd.to_datetime` parser, used to
instantiate theorems at concrete inputs: accepts `"YYYY-MM-DD HH:MM"`. -/
def simpleParse (s : String) : Option Timestamp :=
  match s.splitOn " " with
  | [d, t] =>
    match d.splitOn "-", t.splitOn ":" with
    | [ys, ms, ds], [hs, mins] =>
      match ys.toNat?, ms.toNat?, ds.toNat?, hs.toNat?, mins.toNat? with
      | some y, some mo, some dd, some hh, some mm =>
        some ⟨y, mo, dd, hh, mm⟩
      | _, _, _, _, _ => none
    | _, _ => none
  | _ => none

/-! ### Calendar events (app.py lines 250-264)

The list comprehension builds one dictionary per row of `filtered`,
with no condition clause: every row yields an event. -/

/-- Two-digit field of `datetime.isoformat()`. -/
def pad2 (n : Nat) : String :=
  if n < 10 then "0" ++ toString n else toString n

/-- Python `Timestamp.isoformat()`: `YYYY-MM-DDTHH:MM:SS` (seconds are always
zero in this pipeline). -/
def isoformat (t : Timestamp) : String :=
  toString t.year ++ "-" ++ pad2 t.month ++ "-" ++ pad2 t.day ++ "T" ++
    pad2 t.hour ++ ":" ++ pad2 t.minute ++ ":00"

/-- Serialization of a nullable `start`/`end` cell; pandas
`NaT.isoformat()` returns the string `"NaT"`. -/
def isoOrNaT : Option Timestamp → String
  | some t => isoformat t
  | none => "NaT"

/-- One row of the processed table, as the event comprehension reads it.
The field `stop` is the dataframe's `end` column (`end` is reserved). -/
structure AppointmentRow where
  title : String
  start : Option Timestamp
  stop : Option Timestamp
  color : String
  professional : String
  patient : String
  description : String
  deriving DecidableEq, Repr

/-- The extended-properties dictionary of one event. -/
structure ExtendedProps where
  professional : String
  patient : String
  description : String
  deriving DecidableEq, Repr

/-- One FullCalendar event dictionary; `stop` is the `end` key. -/
structure CalEvent where
  title : String
  start : String
  stop : String
  backgroundColor : String
  borderColor : String
  extendedProps : ExtendedProps
  deriving DecidableEq, Repr

/-- The event dictionary built from one row (lines 251-262).  Note line
260: the `description` entry is populated from `row["professional"]`. -/
def makeEvent (r : AppointmentRow) : CalEvent :=
  { title := r.title
    start := isoOrNaT r.start
    stop := isoOrNaT r.stop
    backgroundColor := r.color
    borderColor := r.color
    extendedProps :=
      { professional := r.professional
        patient := r.patient
        description := r.professional } }

/-- Lines 250-264: the comprehension over `filtered.iterrows()`. -/
def makeEvents (rows : List AppointmentRow) : List CalEvent :=
  rows.map makeEvent

/-- Concrete fixture: a fully populated row with distinct professional
and description texts. -/
def sampleRow : AppointmentRow where
  title := "P1 (obs)"
  start := some ⟨2024, 1, 10, 9, 0⟩
  stop := some ⟨2024, 1, 10, 9, 30⟩
  color := "#0C7A0C"
  professional := "Dr. A"
  patient := "P1"
  description := "obs"

/-- Concrete fixture: a row whose reconstructed `start` is null. -/
def nullStartRow : AppointmentRow where
  title := "P1"
  start := none
  stop := none
  color := "Falta"
  professional := "Dr. A"
  patient := "P1"
  description := ""

/-! ### Duration and end time (app.py lines 161, 193-198)

`duration_series = df.get("duração_minutos") or df.get("duracao_minutos")`,
then `end_delta = pd.to_timedelta(duration_series.fillna(DEFAULT_DURATION_MIN),
unit="m")` when a column was found, else the scalar default, and finally
`df["end"] = df["start"] + end_delta`. -/

/-- One cell of a raw column: null (NaN), a number, or other text. -/
inductive Cell where
  | null : Cell
  | num : Int → Cell
  | txt : String → Cell
  deriving DecidableEq, Repr

/-- Lookup `df.get(name)`: the column when present, else `None`. -/
def dfGet (table : List (String × List Cell)) (name : String) :
    Option (List Cell) :=
  (table.find? (fun p => p.1 == name)).map (fun p => p.2)

/-- Line 193.  Python's `or` first takes the truth value of its left
operand, and `Series.__bool__` raises `ValueError` unconditionally
("The truth value of a Series is ambiguous").  So when the column
`"duração_minutos"` exists the line raises; only when it is absent does
evaluation fall through to `df.get("duracao_minutos")`. -/
def durationSeriesLookup (table : List (String × List Cell)) :
    Except String (Option (List Cell)) :=
  match dfGet table "duração_minutos" with
  | some _ => Except.error "The truth value of a Series is ambiguous"
  | none => Except.ok (dfGet table "duracao_minutos")

/-- Line 161: `DEFAULT_DURATION_MIN = 30` (minutes). -/
def DEFAULT_DURATION_MIN : Int := 30

/-- Pandas `Series.fillna(d)` on one cell. -/
def fillna (d : Int) : Cell → Cell
  | Cell.null => Cell.num d
  | c => c

/-- Conversion `pd.to_timedelta(·, unit="m")` on one cell: a number becomes that many
minutes (negative numbers give negative timedeltas); non-numeric text
raises.  The null branch is unreachable here because `fillna` runs
first. -/
def toTimedeltaMin : Cell → Except String Int
  | Cell.num v => Except.ok v
  | Cell.null => Except.error "to_timedelta: NaN"
  | Cell.txt _ => Except.error "to_timedelta: invalid value"

/-- Line 195 elementwise: fill nulls with the default, convert to minute
offsets, propagating the first raise. -/
def seriesToTimedelta : List Cell → Except String (List Int)
  | [] => Except.ok []
  | c :: cs =>
    match toTimedeltaMin (fillna DEFAULT_DURATION_MIN c) with
    | Except.error e => Except.error e
    | Except.ok v =>
      match seriesToTimedelta cs with
      | Except.error e => Except.error e
      | Except.ok vs => Except.ok (v :: vs)

/-- Lines 193-197 as a whole: resolve the duration column, then build the
per-row minute offset (`end_delta`); with no usable column every one of
the `n` rows gets the scalar default. -/
def endDelta (table : List (String × List Cell)) (n : Nat) :
    Except String (List Int) :=
  match durationSeriesLookup table with
  | Except.error e => Except.error e
  | Except.ok none => Except.ok (List.replicate n DEFAULT_DURATION_MIN)
  | Except.ok (some cells) => seriesToTimedelta cells

/-- Line 198, `df["end"] = df["start"] + end_delta`, over minute offsets
from an arbitrary origin: a null start yields a null end (NaT plus a
timedelta is NaT). -/
def addDelta (starts : List (Option Int)) (delta : List Int) :
    List (Option Int) :=
  List.zipWith (fun s d => s.map (fun v => v + d)) starts delta

/-- Whether a cell holds non-numeric text. -/
def isTextCell : Cell → Bool
  | Cell.txt _ => true
  | _ => false

/-- The minute offset a null-or-numeric cell ends up contributing: nulls
take the default, numbers their own value.  (Text cells never reach this
point; the 0 is a dead branch.) -/
def cellMinutes : Cell → Int
  | Cell.null => DEFAULT_DURATION_MIN
  | Cell.num v => v
  | Cell.txt _ => 0

/-! ### Filter engine (app.py lines 69-142)

`filter_dataframe` first coerces object columns that parse as datetimes
and strips timezones (lines 87-95), then for each user-selected column
dispatches on the column's type (lines 104, 111, 123, 135) and filters
the surviving rows with that branch's predicate (`df = df[mask]`). -/

/-- The dtype of a column after the coercion pre-pass: categorical,
numeric, datetime (timezone already stripped), or leftover object. -/
inductive Dtype where
  | category : Dtype
  | numeric : Dtype
  | datetime : Dtype
  | object : Dtype
  deriving DecidableEq, Repr

/-- One value of a column offered for filtering: a number, a naive
timestamp on a linear time axis, or text. -/
inductive FilterValue where
  | num : ℚ → FilterValue
  | dt : Int → FilterValue
  | str : String → FilterValue
  deriving DecidableEq, Repr

/-- A column as `filter_dataframe` sees it. -/
structure Column where
  dtype : Dtype
  values : List FilterValue
  deriving DecidableEq, Repr

/-- Pandas `df[column].nunique()`: the number of distinct values. -/
def nunique (c : Column) : Nat := c.values.dedup.length

/-- The inferred predicate kind of a column. -/
inductive ColKind where
  | categorical : ColKind
  | numeric : ColKind
  | temporal : ColKind
  | text : ColKind
  deriving DecidableEq, Repr

/-- The dispatch of lines 104/111/123/135 in source order: categorical
when the dtype is categorical or the distinct-value count is below 100;
else numeric by dtype; else datetime by dtype; else text. -/
def inferKind (c : Column) : ColKind :=
  if c.dtype = Dtype.category ∨ nunique c < 100 then ColKind.categorical
  else if c.dtype = Dtype.numeric then ColKind.numeric
  else if c.dtype = Dtype.datetime then ColKind.temporal
  else ColKind.text

/-- The parameters the UI widgets hand back verbatim: one field per
widget shape (multiselect, numeric slider, date range, text box). -/
structure UserInput where
  catSel : List FilterValue
  numLo : ℚ
  numHi : ℚ
  dateLo : Int
  dateHi : Int
  textPat : String
  deriving Repr

/-- Pandas `Series.isin(sel)` on one value (line 110). -/
def isin (sel : List FilterValue) (v : FilterValue) : Bool :=
  sel.contains v

/-- Pandas `Series.between(lo, hi)` on one numeric value (line 122): inclusive
at both endpoints.  On a numeric-dtype column every value is a number;
the other branches are dead. -/
def betweenNum (lo hi : ℚ) (v : FilterValue) : Bool :=
  match v with
  | FilterValue.num q => decide (lo ≤ q) && decide (q ≤ hi)
  | _ => false

/-- Pandas `Series.between(start_date, end_date)` on one timestamp (line 134):
inclusive at both endpoints. -/
def betweenDate (lo hi : Int) (v : FilterValue) : Bool :=
  match v with
  | FilterValue.dt t => decide (lo ≤ t) && decide (t ≤ hi)
  | _ => false

/-- Conversion `astype(str)` on one value, for the text branch. -/
def valueToString : FilterValue → String
  | FilterValue.num q => toString q
  | FilterValue.dt t => toString t
  | FilterValue.str s => s

/-- Literal substring containment: `s.splitOn pat` has more than one
part exactly when the nonempty pattern occurs in `s`. -/
def strContainsSubstr (s pat : String) : Bool :=
  (s.splitOn pat).length != 1

/-- Pandas `Series.astype(str).str.contains(pat)` on one value (line 140),
with the pattern read as a literal substring (the regex-metacharacter
fragment of `str.contains` is outside this model). -/
def strContains (pat : String) (v : FilterValue) : Bool :=
  strContainsSubstr (valueToString v) pat

/-- The loop body of lines 101-140 for one selected column: dispatch,
then keep the values passing the branch's predicate.  In the text branch
an empty input (`if user_text_input:`) applies no filter at all. -/
def filterColumn (c : Column) (ui : UserInput) : List FilterValue :=
  if c.dtype = Dtype.category ∨ nunique c < 100 then
    c.values.filter (isin ui.catSel)
  else if c.dtype = Dtype.numeric then
    c.values.filter (betweenNum ui.numLo ui.numHi)
  else if c.dtype = Dtype.datetime then
    c.values.filter (betweenDate ui.dateLo ui.dateHi)
  else if ui.textPat = "" then
    c.values
  else
    c.values.filter (strContains ui.textPat)

/-- The predicate shape the engine builds for each inferred kind. -/
def kindPredicate (k : ColKind) (ui : UserInput) : FilterValue → Bool :=
  match k with
  | ColKind.categorical => isin ui.catSel
  | ColKind.numeric => betweenNum ui.numLo ui.numHi
  | ColKind.temporal => betweenDate ui.dateLo ui.dateHi
  | ColKind.text => fun v => (ui.textPat == "") || strContains ui.textPat v

/-- The cell `df[column]` read from one row of the table. -/
def getCell (r : List (String × FilterValue)) (col : String) :
    Option FilterValue :=
  (r.find? (fun p => p.1 == col)).map (fun p => p.2)

/-- One active predicate: a user-selected column together with the
parameters of its inferred kind. -/
structure ActiveFilter where
  column : String
  kind : ColKind
  ui : UserInput

/-- Whether one row passes one active predicate.  (A row of the real
dataframe always has the cell; a hypothetical missing cell fails.) -/
def rowPasses (f : ActiveFilter) (r : List (String × FilterValue)) : Bool :=
  match getCell r f.column with
  | some v => kindPredicate f.kind f.ui v
  | none => false

/-- The loop of lines 101-140 at row level: each selected column's
predicate filters the surviving rows in turn (`df = df[mask]`); with no
columns selected the loop body never runs. -/
def applyFilters (fs : List ActiveFilter)
    (rows : List (List (String × FilterValue))) :
    List (List (String × FilterValue)) :=
  fs.foldl (fun acc f => acc.filter (rowPasses f)) rows

/-! ## Theorems -/

/-- C3 counterexample: a table holding exactly the four attributes
`date`, `start_time`, `professional`, `patient` does NOT pass the check —
the code also demands `tipo_falta` and `setor`, so it stops with those two
named as missing, while the claim predicts the pipeline proceeds. -/
theorem c3_counterexample :
    checkRequired ["date", "start_time", "professional", "patient"] =
      Except.error ["tipo_falta", "setor"] := by
  rfl

/-- C3 (amended): the check errors iff at least one of the SIX attributes
`date`, `start_time`, `professional`, `patient`, `tipo_falta`, `setor` is
absent after normalization, and the error names exactly the missing ones;
when all six are present the pipeline proceeds past the check. -/
theorem c3_required_six_columns (cols : List String) :
    (checkRequired cols = Except.ok () ↔ ∀ c ∈ requiredCols, c ∈ cols) ∧
    (∀ m, checkRequired cols = Except.error m →
      ∀ c, c ∈ m ↔ c ∈ requiredCols ∧ c ∉ cols) := by
  have hmem : ∀ c, c ∈ missingCols cols ↔ c ∈ requiredCols ∧ c ∉ cols := by
    intro c
    simp [missingCols, List.mem_filter]
  have hnil : missingCols cols = [] ↔ ∀ c ∈ requiredCols, c ∈ cols := by
    rw [List.eq_nil_iff_forall_not_mem]
    constructor
    · intro h c hc
      by_contra hnc
      exact h c ((hmem c).mpr ⟨hc, hnc⟩)
    · intro h c hc
      rcases (hmem c).mp hc with ⟨h1, h2⟩
      exact h2 (h c h1)
  constructor
  · unfold checkRequired
    split
    case isTrue hh =>
      exact iff_of_true rfl (hnil.mp hh)
    case isFalse hh =>
      exact iff_of_false (by simp) (fun hall => hh (hnil.mpr hall))
  · intro m hm c
    unfold checkRequired at hm
    split at hm
    · exact absurd hm (by simp)
    · cases hm
      exact hmem c

/-- Witness for C3 (amended) at a concrete table: with all six canonical
columns present the check succeeds, and the implication about error
contents holds vacuously. -/
theorem c3_required_six_columns_witness :
    checkRequired ["date", "start_time", "professional", "patient",
      "tipo_falta", "setor"] = Except.ok () := by
  have h := c3_required_six_columns
    ["date", "start_time", "professional", "patient", "tipo_falta", "setor"]
  exact h.1.mpr (by decide)

/-- C5: the classifier maps each recognized outcome text to its fixed color
tag by exact match, and any outcome text outside the synonym table passes
through unchanged — the unclassified treatment — so an unrecognized value
never raises and never blocks event generation. -/
theorem c5_color_classification :
    colorOf "Atendido" = "#0C7A0C" ∧
    colorOf "Paciente" = "#2A3B9E" ∧
    colorOf "Profissional" = "#E70F0F" ∧
    (∀ v : String, v ∉ colorKeys → colorOf v = v) := by
  refine ⟨by decide, by decide, by decide, ?_⟩
  intro v hv
  simp only [colorKeys, List.mem_cons, List.not_mem_nil, or_false] at hv
  push_neg at hv
  obtain ⟨h1, h2, h3⟩ := hv
  simp [colorOf, replaceVal, h1, h2, h3]

/-- Witness for C5 at a concrete unrecognized value: `"Faltou"` is not in
the synonym table and passes through unchanged. -/
theorem c5_color_classification_witness :
    "Faltou" ∉ colorKeys ∧ colorOf "Faltou" = "Faltou" :=
  ⟨by decide, c5_color_classification.2.2.2 "Faltou" (by decide)⟩

/-- C6: for every column of outcome cells and category, the displayed
metric equals `count(matching rows) / total(rows) * 100` rounded to two
decimal places when the view is nonempty, and equals 0 on a zero-row view
(the division error is caught), never failing. -/
theorem c6_metric_ratio (col : List (Option String)) (cat : String) :
    displayedPct col cat =
      if col.length = 0 then 0
      else round2 ((List.count (some cat) col : ℚ) / (col.length : ℚ) * 100) := by
  unfold displayedPct categoryPct
  split
  · simp [round2]
  · have hc : (col.filter (fun c => decide (c = some cat))).length =
        List.count (some cat) col := by
      have hf : (fun c : Option String => decide (c = some cat)) =
          (fun c : Option String => c == some cat) := by
        funext c
        rw [Bool.eq_iff_iff]
        simp
      rw [List.count_eq_countP, List.countP_eq_length_filter, ← hf]
    rw [hc]

/-- C9: whatever the contents of the date and time columns and whatever the
external parser does, the reconstructed `start` at any of the last two
positions (`i ≥ n - 2`) is null, because the sliced time series has no
value there, so the combined text is missing and `errors="coerce"` yields
NaT. -/
theorem c9_last_two_starts_null (parse : String → Option Timestamp)
    (dates times : List String) (i : Nat)
    (hlen : dates.length = times.length)
    (hi : i < dates.length) (h2 : dates.length ≤ i + 2) :
    (reconstructStart parse dates times)[i]? = some none := by
  unfold reconstructStart combineDateTime
  rw [List.getElem?_map, List.getElem?_map, List.getElem?_range hi]
  have hcond : ¬ i + 2 < times.length := by omega
  simp [hcond]

/-- Witness for C9: a concrete three-row table whose dates and times are
all well-formed, yet the reconstructed start of the last row (position 2)
is null. -/
theorem c9_last_two_starts_null_witness :
    (reconstructStart simpleParse ["2024-01-10", "2024-01-11", "2024-01-12"]
      ["09:00", "10:00", "11:00"])[2]? = some none :=
  c9_last_two_starts_null simpleParse
    ["2024-01-10", "2024-01-11", "2024-01-12"] ["09:00", "10:00", "11:00"] 2
    rfl (by decide) (by decide)

/-- C7 failing input: on a row with professional `"Dr. A"` and description
`"obs"`, every event field matches the row except `extendedProps.description`,
which line 260 populates from `row["professional"]` — it carries `"Dr. A"`,
not the row's description `"obs"`. -/
theorem c7_description_gets_professional :
    (makeEvent sampleRow).title = sampleRow.title ∧
    (makeEvent sampleRow).start = "2024-01-10T09:00:00" ∧
    (makeEvent sampleRow).stop = "2024-01-10T09:30:00" ∧
    (makeEvent sampleRow).backgroundColor = sampleRow.color ∧
    (makeEvent sampleRow).borderColor = sampleRow.color ∧
    (makeEvent sampleRow).extendedProps.professional = sampleRow.professional ∧
    (makeEvent sampleRow).extendedProps.patient = sampleRow.patient ∧
    (makeEvent sampleRow).extendedProps.description = sampleRow.professional ∧
    (makeEvent sampleRow).extendedProps.description ≠ sampleRow.description := by
  refine ⟨rfl, rfl, rfl, rfl, rfl, rfl, rfl, rfl, ?_⟩
  decide

/-- C1 counterexample: a one-row upload with a perfectly well-formed date
and time.  Reconstruction nulls its `start` (the series slice leaves no
time text for the last two rows), the fail-fast stop of lines 189-191 is
commented out, and the event comprehension still emits an event for the
row — serialized with start `"NaT"` — so a null-`start` row is neither
rejected nor excluded from calendar-event generation, contradicting the
claim. -/
theorem c1_counterexample :
    reconstructStart simpleParse ["2024-01-10"] ["09:00"] = [none] ∧
    nullStartRow.start = none ∧
    makeEvents [nullStartRow] = [makeEvent nullStartRow] ∧
    (makeEvent nullStartRow).start = "NaT" := by
  exact ⟨rfl, rfl, rfl, rfl⟩

/-- C1 (amended): the pipeline neither fails fast nor excludes null-start
rows.  Every row of the filtered table yields exactly one calendar event,
and a row whose `start` is null is still mapped to an event, with its
start serialized as the string `"NaT"`. -/
theorem c1_null_start_rows_still_generate_events (rows : List AppointmentRow) :
    (makeEvents rows).length = rows.length ∧
    ∀ r ∈ rows, r.start = none →
      makeEvent r ∈ makeEvents rows ∧ (makeEvent r).start = "NaT" := by
  constructor
  · simp [makeEvents]
  · intro r hr hnone
    refine ⟨List.mem_map_of_mem _ hr, ?_⟩
    simp [makeEvent, hnone, isoOrNaT]

/-- Witness for C1 (amended) at a concrete one-row table with a null
start: the event list has one entry, containing the null-start row's
event with start `"NaT"`. -/
theorem c1_null_start_rows_still_generate_events_witness :
    (makeEvents [nullStartRow]).length = 1 ∧
    makeEvent nullStartRow ∈ makeEvents [nullStartRow] ∧
    (makeEvent nullStartRow).start = "NaT" := by
  have h := c1_null_start_rows_still_generate_events [nullStartRow]
  have h2 := h.2 nullStartRow (List.mem_singleton.mpr rfl) rfl
  exact ⟨h.1, h2.1, h2.2⟩

/-- Helper: `df["end"] = df["start"] + end_delta` pointwise — at any row
with a non-null start and a defined offset, the end is start plus
offset. -/
theorem addDelta_pointwise (starts : List (Option Int)) (delta : List Int)
    (i : Nat) (s d : Int) (h1 : starts[i]? = some (some s))
    (h2 : delta[i]? = some d) :
    (addDelta starts delta)[i]? = some (some (s + d)) := by
  induction starts generalizing delta i with
  | nil => simp at h1
  | cons a as ih =>
    cases delta with
    | nil => simp at h2
    | cons b bs =>
      cases i with
      | zero =>
        simp only [List.getElem?_cons_zero, Option.some.injEq] at h1 h2
        simp [addDelta, h1, h2]
      | succ j =>
        have h1' : as[j]? = some (some s) := by simpa using h1
        have h2' : bs[j]? = some d := by simpa using h2
        simpa [addDelta] using ih bs j h1' h2'

/-- Helper: on a column of only null or numeric cells, line 195 succeeds
and each row contributes its own value, nulls contributing the default. -/
theorem seriesToTimedelta_ok (cells : List Cell)
    (h : ∀ c ∈ cells, isTextCell c = false) :
    seriesToTimedelta cells = Except.ok (cells.map cellMinutes) := by
  induction cells with
  | nil => rfl
  | cons c cs ih =>
    have hc := h c (List.mem_cons_self c cs)
    have hcs := ih (fun x hx => h x (List.mem_cons_of_mem c hx))
    cases c with
    | null => simp [seriesToTimedelta, fillna, toTimedeltaMin, hcs, cellMinutes]
    | num v => simp [seriesToTimedelta, fillna, toTimedeltaMin, hcs, cellMinutes]
    | txt s => simp [isTextCell] at hc

/-- Helper: a non-numeric text cell anywhere in the duration column makes
line 195 raise. -/
theorem seriesToTimedelta_error (cells : List Cell)
    (h : ∃ c ∈ cells, isTextCell c = true) :
    ∃ e, seriesToTimedelta cells = Except.error e := by
  induction cells with
  | nil => simp at h
  | cons c cs ih =>
    cases c with
    | txt s =>
      exact ⟨"to_timedelta: invalid value",
        by simp [seriesToTimedelta, fillna, toTimedeltaMin]⟩
    | null =>
      have hcs : ∃ x ∈ cs, isTextCell x = true := by
        rcases h with ⟨x, hx, ht⟩
        rcases List.mem_cons.mp hx with rfl | hmem
        · simp [isTextCell] at ht
        · exact ⟨x, hmem, ht⟩
      rcases ih hcs with ⟨e, he⟩
      exact ⟨e, by simp [seriesToTimedelta, fillna, toTimedeltaMin, he]⟩
    | num v =>
      have hcs : ∃ x ∈ cs, isTextCell x = true := by
        rcases h with ⟨x, hx, ht⟩
        rcases List.mem_cons.mp hx with rfl | hmem
        · simp [isTextCell] at ht
        · exact ⟨x, hmem, ht⟩
      rcases ih hcs with ⟨e, he⟩
      exact ⟨e, by simp [seriesToTimedelta, fillna, toTimedeltaMin, he]⟩

/-- C2 counterexample: a table whose (working-spelling) duration column
holds the negative value -5.  The fallback claimed for negative values
does not happen: the row's end offset is -5 minutes, so for a start at
minute 540 the end is minute 535 and `end - start = -5 ≠ 30`. -/
theorem c2_counterexample :
    endDelta [("duracao_minutos", [Cell.num (-5)])] 1 = Except.ok [-5] ∧
    addDelta [some 540] [-5] = [some 535] ∧
    ((535 : Int) - 540 = -5 ∧ (-5 : Int) ≠ 30) := by
  refine ⟨rfl, rfl, by decide, by decide⟩

/-- C2 (amended): with no duration column under either spelling every row
gets the 30-minute default; with the working-spelling column present,
line 195 maps each null cell to the 30-minute default and each numeric
cell — negative values included — to exactly its own value, while any
non-numeric text cell raises instead of falling back; and wherever start
and offset are defined, `end = start + offset`. -/
theorem c2_duration_semantics (table : List (String × List Cell))
    (cells : List Cell) (n : Nat) (starts : List (Option Int))
    (delta : List Int) (i : Nat) (s d : Int) :
    (dfGet table "duração_minutos" = none →
      dfGet table "duracao_minutos" = none →
      endDelta table n = Except.ok (List.replicate n DEFAULT_DURATION_MIN)) ∧
    (dfGet table "duração_minutos" = none →
      dfGet table "duracao_minutos" = some cells →
      endDelta table n = seriesToTimedelta cells) ∧
    ((∀ c ∈ cells, isTextCell c = false) →
      seriesToTimedelta cells = Except.ok (cells.map cellMinutes)) ∧
    ((∃ c ∈ cells, isTextCell c = true) →
      ∃ e, seriesToTimedelta cells = Except.error e) ∧
    (starts[i]? = some (some s) → delta[i]? = some d →
      (addDelta starts delta)[i]? = some (some (s + d))) := by
  refine ⟨?_, ?_, seriesToTimedelta_ok cells, seriesToTimedelta_error cells,
    addDelta_pointwise starts delta i s d⟩
  · intro h1 h2
    unfold endDelta durationSeriesLookup
    rw [h1, h2]
  · intro h1 h2
    unfold endDelta durationSeriesLookup
    rw [h1, h2]

/-- Witness for C2 (amended) at a concrete table: the duration column
`[null, 45]` produces offsets `[30, 45]`, and the second row's end is its
start plus 45 minutes. -/
theorem c2_duration_semantics_witness :
    endDelta [("duracao_minutos", [Cell.null, Cell.num 45])] 2 =
      Except.ok [30, 45] ∧
    (addDelta [some 540, some 600] [30, 45])[1]? = some (some 645) := by
  have h := c2_duration_semantics
    [("duracao_minutos", [Cell.null, Cell.num 45])]
    [Cell.null, Cell.num 45] 2 [some 540, some 600] [30, 45] 1 600 45
  constructor
  · have h2 := h.2.1 rfl rfl
    have h3 := h.2.2.1 (by decide)
    rw [h2, h3]
    rfl
  · exact h.2.2.2.2 rfl rfl

/-- C10: whenever the normalized table has a column spelled
`"duração_minutos"`, line 193 raises the ambiguous-truth-value
`ValueError` before any end time is computed, so that column can never
take effect. -/
theorem c10_accented_duration_column_raises
    (table : List (String × List Cell)) (cells : List Cell) (n : Nat)
    (h : dfGet table "duração_minutos" = some cells) :
    endDelta table n =
      Except.error "The truth value of a Series is ambiguous" := by
  unfold endDelta durationSeriesLookup
  rw [h]

/-- Witness for C10 at a concrete table holding a well-formed
`"duração_minutos"` column: the end-time stage raises. -/
theorem c10_accented_duration_column_raises_witness :
    dfGet [("duração_minutos", [Cell.num 45])] "duração_minutos" =
      some [Cell.num 45] ∧
    endDelta [("duração_minutos", [Cell.num 45])] 1 =
      Except.error "The truth value of a Series is ambiguous" :=
  ⟨rfl, c10_accented_duration_column_raises
    [("duração_minutos", [Cell.num 45])] [Cell.num 45] 1 rfl⟩

/-- C4: the per-column kind inference follows exactly the source's
priority order — categorical when tagged categorical or under 100
distinct values, else numeric by dtype, else temporal by dtype, else
text — and each kind filters with its matching predicate shape:
set-membership, inclusive numeric interval, inclusive timestamp
interval, and substring containment with empty input meaning no
filter. -/
theorem c4_type_inference_priority (c : Column) (ui : UserInput) :
    (inferKind c = ColKind.categorical ↔
      c.dtype = Dtype.category ∨ nunique c < 100) ∧
    (inferKind c = ColKind.numeric ↔
      ¬(c.dtype = Dtype.category ∨ nunique c < 100) ∧
        c.dtype = Dtype.numeric) ∧
    (inferKind c = ColKind.temporal ↔
      ¬(c.dtype = Dtype.category ∨ nunique c < 100) ∧
        c.dtype ≠ Dtype.numeric ∧ c.dtype = Dtype.datetime) ∧
    (inferKind c = ColKind.text ↔
      ¬(c.dtype = Dtype.category ∨ nunique c < 100) ∧
        c.dtype ≠ Dtype.numeric ∧ c.dtype ≠ Dtype.datetime) ∧
    (filterColumn c ui = c.values.filter (kindPredicate (inferKind c) ui)) ∧
    (∀ sel v, isin sel v = true ↔ v ∈ sel) ∧
    (∀ lo hi q, betweenNum lo hi (FilterValue.num q) = true ↔
      lo ≤ q ∧ q ≤ hi) ∧
    (∀ lo hi t, betweenDate lo hi (FilterValue.dt t) = true ↔
      lo ≤ t ∧ t ≤ hi) ∧
    (∀ v, kindPredicate ColKind.text ui v = true ↔
      ui.textPat = "" ∨ strContains ui.textPat v = true) := by
  refine ⟨?_, ?_, ?_, ?_, ?_, ?_, ?_, ?_, ?_⟩
  · unfold inferKind
    split_ifs with h1 h2 h3 <;> simp_all
  · unfold inferKind
    split_ifs with h1 h2 h3 <;> simp_all
  · unfold inferKind
    split_ifs with h1 h2 h3 <;> simp_all
  · unfold inferKind
    split_ifs with h1 h2 h3 <;> simp_all
  · unfold filterColumn inferKind kindPredicate
    split_ifs with h1 h2 h3 h4
    · rfl
    · rfl
    · rfl
    · rw [h4]
      simp [List.filter_true]
    · have hfalse : (ui.textPat == "") = false := beq_eq_false_iff_ne.mpr h4
      simp only [hfalse, Bool.false_or]
  · intro sel v
    simp [isin, List.contains, List.elem_iff]
  · intro lo hi q
    simp [betweenNum]
  · intro lo hi t
    simp [betweenDate]
  · intro v
    simp [kindPredicate]

/-- Helper: the sequential per-column filtering of the loop equals a
single filter by the conjunction of all active predicates. -/
theorem applyFilters_eq_filter (fs : List ActiveFilter)
    (rows : List (List (String × FilterValue))) :
    applyFilters fs rows =
      rows.filter (fun r => fs.all (fun f => rowPasses f r)) := by
  induction fs generalizing rows with
  | nil => simp [applyFilters]
  | cons f fs ih =>
    show applyFilters fs (rows.filter (rowPasses f)) = _
    rw [ih, List.filter_filter]
    exact List.filter_congr (fun x hx => by simp [List.all_cons, Bool.and_comm])

/-- C8: predicate application is stateless and idempotent — applying a
fixed set of active predicates to its own output returns the very same
row list — and applying an empty predicate set (no columns selected)
returns the table unchanged in both row count and order. -/
theorem c8_filter_idempotent_and_neutral (fs : List ActiveFilter)
    (rows : List (List (String × FilterValue))) :
    applyFilters fs (applyFilters fs rows) = applyFilters fs rows ∧
    applyFilters [] rows = rows := by
  constructor
  · rw [applyFilters_eq_filter fs (applyFilters fs rows),
      applyFilters_eq_filter fs rows, List.filter_filter]
    exact List.filter_congr (fun x hx => by simp)
  · rfl
